import Mathlib

/-!
A shallow embedding of the Freightos CLI client (`scripts/freightos-client.ts`):
the sliding-window rate limiter, the query-parameter builder, the response
normalizer and the request facade, together with theorems checking the
repository's specification against this embedding.

Modelling conventions:
* epoch-millisecond timestamps are `Int`; `Date.now()` becomes an explicit
  `now : Int` argument threaded through each operation;
* the persisted rate-limit file is its payload, the list of call timestamps;
* JS string interpolation becomes explicit `++` of `toString` pieces;
  `Date.toLocaleTimeString()` (pure formatting) is modelled as decimal
  rendering of the epoch value via `timeText`;
* `Math.round` on a JS number becomes `round` on `ℚ` (both round half
  towards positive infinity);
* the single potential `fetch` of a request is an oracle argument
  `http : HttpOutcome` describing how the upstream call would complete;
  a request that never touches the oracle performed no network call.
-/

namespace Freightos

/-- Rate limit constant `RATE_LIMIT = 100` (calls per hour). -/
def RATE_LIMIT : Nat := 100

/-- Rate limit window `RATE_LIMIT_WINDOW_MS = 60 * 60 * 1000` (one hour in ms). -/
def RATE_LIMIT_WINDOW_MS : Int := 60 * 60 * 1000

/-- Warning threshold `RATE_LIMIT_WARNING_THRESHOLD = 80` (warn at 80% usage). -/
def RATE_LIMIT_WARNING_THRESHOLD : Nat := 80

/-- `RateLimitStatus` as returned by `getRateLimitStatus`. -/
structure RateLimitStatus where
  callsInLastHour : Nat
  limit : Nat
  remaining : Int
  percentUsed : Int
  resetsAt : Option Int
  warning : Option String
  deriving DecidableEq, Repr

/-- `cleanOldCalls`: keep only timestamps strictly newer than `now - window`
(`calls.filter((timestamp) => timestamp > cutoff)`). -/
def cleanOldCalls (calls : List Int) (now : Int) : List Int :=
  calls.filter (fun timestamp => now - RATE_LIMIT_WINDOW_MS < timestamp)

/-- `Math.min(...recentCalls)`: minimum of a nonempty list (the `[]` case is
unreachable at the call site, which guards on nonemptiness). -/
def mathMin : List Int → Int
  | [] => 0
  | x :: xs => xs.foldl min x

/-- `resetsAt?.toLocaleTimeString() || fallback`: render an optional epoch
time, falling back to the given default string when absent. -/
def timeText (o : Option Int) (fallback : String) : String :=
  match o with
  | some t => toString t
  | none => fallback

/-- `Math.round (num / den)` in exact arithmetic: `⌊num / den + 1 / 2⌋`
(JavaScript `Math.round` rounds half towards positive infinity), written
with integer floor division so the kernel can evaluate it. -/
def jsRound (num den : Int) : Int := (2 * num + den).fdiv (2 * den)

/-- The `RATE LIMIT REACHED` warning template of `getRateLimitStatus`. -/
def reachedMsg (used limit : Nat) (resetText : String) : String :=
  "RATE LIMIT REACHED: " ++ (toString used ++ ("/" ++ (toString limit ++
    (" calls used. Wait until " ++ (resetText ++ " for more capacity.")))))

/-- The `Rate limit warning` (approaching) template of `getRateLimitStatus`. -/
def approachingMsg (used limit : Nat) (percentUsed remaining : Int) : String :=
  "Rate limit warning: " ++ (toString used ++ ("/" ++ (toString limit ++
    (" calls used (" ++ (toString percentUsed ++ ("%). " ++
      (toString remaining ++ " remaining this hour.")))))))

/-- `getRateLimitStatus`: prune the persisted timestamps, then derive count,
remaining quota, percent used, reset time and warning text. -/
def getRateLimitStatus (calls : List Int) (now : Int) : RateLimitStatus :=
  let recentCalls := cleanOldCalls calls now
  let callsInLastHour := recentCalls.length
  let remaining : Int := max 0 ((RATE_LIMIT : Int) - callsInLastHour)
  let percentUsed : Int := jsRound ((callsInLastHour : Int) * 100) (RATE_LIMIT : Int)
  let resetsAt : Option Int :=
    if 0 < recentCalls.length ∧ remaining = 0 then
      some (mathMin recentCalls + RATE_LIMIT_WINDOW_MS)
    else none
  let warning : Option String :=
    if RATE_LIMIT ≤ callsInLastHour then
      some (reachedMsg callsInLastHour RATE_LIMIT (timeText resetsAt "unknown"))
    else if RATE_LIMIT_WARNING_THRESHOLD ≤ callsInLastHour then
      some (approachingMsg callsInLastHour RATE_LIMIT percentUsed remaining)
    else none
  { callsInLastHour, limit := RATE_LIMIT, remaining, percentUsed, resetsAt, warning }

/-- `recordCall`: prune the stored timestamps, append the current one, and
persist the result (the returned list is what gets written back). -/
def recordCall (calls : List Int) (now : Int) : List Int :=
  cleanOldCalls calls now ++ [now]

/-- `QuoteOptions`: optional fields become `Option` (`none` models a JS
`undefined`); the numeric magnitudes are modelled as `Nat`. -/
structure QuoteOptions where
  origin : String
  destination : String
  loadtype : String
  weight : Nat
  weightUnit : Option String := none
  width : Option Nat := none
  length : Option Nat := none
  height : Option Nat := none
  dimensionUnit : Option String := none
  volume : Option Nat := none
  volumeUnit : Option String := none
  quantity : Option Nat := none
  mode : Option String := none
  estimate : Bool := false
  hazCode : Option String := none
  deriving DecidableEq, Repr

/-- JS truthiness of an optional string: `undefined` and `""` are falsy. -/
def strTruthy : Option String → Bool
  | none => false
  | some s => s != ""

/-- The `weight` parameter value:
`options.weightUnit && options.weightUnit !== "kg"` selects the suffixed
rendering, otherwise the bare number is used. -/
def weightParam (options : QuoteOptions) : String :=
  match options.weightUnit with
  | some u => if u != "" && u != "kg" then toString options.weight ++ u
              else toString options.weight
  | none => toString options.weight

/-- `buildParams`: the query parameters in insertion order.  `URLSearchParams`
is modelled as an association list; each key is set at most once, so `set` is
an append.  `options.dimensionUnit || ""` and `options.volumeUnit || ""`
become `getD ""` (`some ""` and `none` both yield `""`). -/
def buildParams (options : QuoteOptions) : List (String × String) :=
  [("origin", options.origin),
   ("destination", options.destination),
   ("loadtype", options.loadtype),
   ("weight", weightParam options)]
  ++ (match options.width with
      | some w => [("width", toString w ++ options.dimensionUnit.getD "")]
      | none => [])
  ++ (match options.length with
      | some l => [("length", toString l ++ options.dimensionUnit.getD "")]
      | none => [])
  ++ (match options.height with
      | some h => [("height", toString h ++ options.dimensionUnit.getD "")]
      | none => [])
  ++ (match options.volume with
      | some v => [("volume", toString v ++ options.volumeUnit.getD "")]
      | none => [])
  ++ (match options.quantity with
      | some q => if 1 < q then [("quantity", toString q)] else []
      | none => [])
  ++ (match options.mode with
      | some m => if m != "" then [("mode", m)] else []
      | none => [])
  ++ (if options.estimate then [("estimate", "true")] else [])
  ++ (match options.hazCode with
      | some hz => if hz != "" then [("hazCode", hz)] else []
      | none => [])
  ++ [("format", "json")]

/-- `RawMoneyAmount` of the raw API response (amounts as exact integers). -/
structure RawMoneyAmount where
  amount : Int
  currency : String
  deriving DecidableEq, Repr

/-- One bound of `RawPrice` (the `{ moneyAmount: ... }` wrapper). -/
structure RawPriceBound where
  moneyAmount : RawMoneyAmount
  deriving DecidableEq, Repr

/-- `RawPrice`: nested min/max price bounds. -/
structure RawPrice where
  min : RawPriceBound
  max : RawPriceBound
  deriving DecidableEq, Repr

/-- The raw `transitTimes` record of a mode entry. -/
structure RawTransitTimes where
  unit : String
  min : Nat
  max : Nat
  deriving DecidableEq, Repr

/-- `RawModeData`: one raw rate entry. -/
structure RawModeData where
  mode : String
  price : RawPrice
  transitTimes : RawTransitTimes
  deriving DecidableEq, Repr

/-- The raw `mode` field is either a single rate object or an array of them
(`RawModeData | RawModeData[]`). -/
inductive RawMode where
  | one (d : RawModeData)
  | many (ds : List RawModeData)
  deriving DecidableEq, Repr

/-- `RawEstimatedFreightRates`; `mode = none` models an absent/null field
(JS objects and arrays, even empty ones, are truthy). -/
structure RawEstimatedFreightRates where
  mode : Option RawMode
  numQuotes : Nat
  deriving DecidableEq, Repr

/-- An element of the raw `errors` array (`{ error: string }`). -/
structure RawErrorObj where
  error : String
  deriving DecidableEq, Repr

/-- The raw `errors` field: a single string or an array of `{error}` objects
(`string | { error: string }[]`). -/
inductive RawErrorsField where
  | str (s : String)
  | arr (es : List RawErrorObj)
  deriving DecidableEq, Repr

/-- The `response` envelope of a raw API response. -/
structure RawResponseBody where
  estimatedFreightRates : Option RawEstimatedFreightRates := none
  errors : Option RawErrorsField := none
  deriving DecidableEq, Repr

/-- `RawApiResponse`. -/
structure RawApiResponse where
  response : RawResponseBody
  deriving DecidableEq, Repr

/-- Normalized `PriceRange`. -/
structure PriceRange where
  amount : Int
  currency : String
  deriving DecidableEq, Repr

/-- Normalized `TransitTimes`. -/
structure TransitTimes where
  min : Nat
  max : Nat
  unit : Option String := none
  deriving DecidableEq, Repr

/-- Normalized `FreightRate`. -/
structure FreightRate where
  mode : String
  minPrice : PriceRange
  maxPrice : PriceRange
  transitTimes : TransitTimes
  deriving DecidableEq, Repr

/-- Normalized `QuoteResponse`; unset fields stay `none` (the `origin`,
`destination` and `rawResponse` fields are never assigned by the modelled
code paths and are omitted). -/
structure QuoteResponse where
  estimatedFreightRates : Option (List FreightRate) := none
  numQuotes : Option Nat := none
  errors : Option (List String) := none
  rateLimit : Option RateLimitStatus := none
  deriving DecidableEq, Repr

/-- JS truthiness of the raw `errors` field: absent and `""` are falsy;
every object or array, even an empty array, is truthy. -/
def errsTruthy : Option RawErrorsField → Bool
  | none => false
  | some (.str s) => s != ""
  | some (.arr _) => true

/-- `Array.isArray(modeData) ? modeData : [modeData]`. -/
def toModesArray : RawMode → List RawModeData
  | .one d => [d]
  | .many ds => ds

/-- The flattening lambda of `transformResponse`: nested raw prices and
transit times become the flat normalized shape. -/
def flattenMode (m : RawModeData) : FreightRate :=
  { mode := m.mode
    minPrice := { amount := m.price.min.moneyAmount.amount
                  currency := m.price.min.moneyAmount.currency }
    maxPrice := { amount := m.price.max.moneyAmount.amount
                  currency := m.price.max.moneyAmount.currency }
    transitTimes := { min := m.transitTimes.min
                      max := m.transitTimes.max
                      unit := some m.transitTimes.unit } }

/-- The freight-rates half of `transformResponse` (the code after the error
early-return): set `numQuotes`, return an empty list when the mode field is
absent or `numQuotes === 0`, otherwise map the flattening over the modes. -/
def transformRates (raw : RawApiResponse) (result : QuoteResponse) : QuoteResponse :=
  match raw.response.estimatedFreightRates with
  | none => result
  | some rates =>
    let result := { result with numQuotes := some rates.numQuotes }
    match rates.mode with
    | none => { result with estimatedFreightRates := some [] }
    | some modeData =>
      if rates.numQuotes = 0 then { result with estimatedFreightRates := some [] }
      else { result with
             estimatedFreightRates := some ((toModesArray modeData).map flattenMode) }

/-- `transformResponse`: normalize the error field first (single string or
array of `{error}` objects, guarded by JS truthiness and by a nonempty-array
check); a nonempty normalized error list returns immediately, otherwise the
freight rates are transformed. -/
def transformResponse (raw : RawApiResponse) : QuoteResponse :=
  let result : QuoteResponse := {}
  let result : QuoteResponse :=
    if errsTruthy raw.response.errors then
      match raw.response.errors with
      | some (.str s) => { result with errors := some [s] }
      | some (.arr es) =>
          if 0 < es.length then { result with errors := some (es.map RawErrorObj.error) }
          else result
      | none => result
    else result
  match result.errors with
  | some es => if 0 < es.length then result else transformRates raw result
  | none => transformRates raw result

/-- How the single potential `fetch` of a request completes: a JSON body with
`response.ok`, or a non-success HTTP status with its body text. -/
inductive HttpOutcome where
  | ok (body : RawApiResponse)
  | httpError (status : Nat) (text : String)
  deriving DecidableEq, Repr

/-- Outcome of `request`: a returned `QuoteResponse` or a thrown `Error`. -/
inductive RequestResult where
  | response (r : QuoteResponse)
  | thrown (message : String)
  deriving DecidableEq, Repr

/-- The rate-limit short-circuit message of `request`. -/
def rateLimitExceededMsg (status : RateLimitStatus) : String :=
  "Rate limit exceeded: " ++ (toString status.callsInLastHour ++ ("/" ++
    (toString status.limit ++ (" calls in the last hour. Try again at " ++
      (timeText status.resetsAt "later" ++ ".")))))

/-- The thrown message for a non-success HTTP status. -/
def apiErrorMsg (status : Nat) (text : String) : String :=
  "Freightos API error (" ++ (toString status ++ ("): " ++ text))

/-- The thrown message for business errors found in a 200 body. -/
def apiErrorsMsg (errors : List String) : String :=
  "Freightos API errors: " ++ String.intercalate ", " errors

/-- `request`: pre-flight rate-limit check (short-circuit without touching
the oracle and without changing the stored calls), otherwise fetch, record
the call, and normalize, throwing on HTTP error or business errors.  Returns
the outcome together with the stored call list after the operation.  The
query `params` only shape the fetched URL, which the oracle abstracts. -/
def request (_params : List (String × String)) (calls : List Int) (now : Int)
    (http : HttpOutcome) : RequestResult × List Int :=
  let status := getRateLimitStatus calls now
  if 0 < status.remaining then
    let calls := recordCall calls now
    match http with
    | .httpError code text => (.thrown (apiErrorMsg code text), calls)
    | .ok rawData =>
      let data := transformResponse rawData
      let data := { data with rateLimit := some (getRateLimitStatus calls now) }
      match data.errors with
      | some es =>
        if 0 < es.length then (.thrown (apiErrorsMsg es), calls)
        else (.response data, calls)
      | none => (.response data, calls)
  else
    (.response { errors := some [rateLimitExceededMsg status], rateLimit := some status },
     calls)

/-- `getQuote`. -/
def getQuote (options : QuoteOptions) (calls : List Int) (now : Int)
    (http : HttpOutcome) : RequestResult × List Int :=
  request (buildParams options) calls now http

/-- `getQuoteEstimate`: `getQuote` with the estimate flag forced on. -/
def getQuoteEstimate (options : QuoteOptions) (calls : List Int) (now : Int)
    (http : HttpOutcome) : RequestResult × List Int :=
  request (buildParams { options with estimate := true }) calls now http

/-- `compareRates`: build the parameters, then delete the `mode` key. -/
def compareRates (options : QuoteOptions) (calls : List Int) (now : Int)
    (http : HttpOutcome) : RequestResult × List Int :=
  request ((buildParams options).filter (fun p => p.1 ≠ "mode")) calls now http

end Freightos

namespace Freightos

/-- A concrete raw response whose `estimatedFreightRates` has no `mode` field
but a nonzero `numQuotes`. -/
def noModeSevenQuotes : RawApiResponse := ⟨{ estimatedFreightRates := some ⟨none, 7⟩ }⟩

/-- A concrete raw rate entry used to instantiate general theorems. -/
def seaMode : RawModeData :=
  { mode := "sea"
    price := { min := ⟨⟨1000, "USD"⟩⟩, max := ⟨⟨1500, "USD"⟩⟩ }
    transitTimes := { unit := "days", min := 20, max := 30 } }

/-- A concrete quote request used to instantiate general theorems. -/
def sampleOptions : QuoteOptions :=
  { origin := "CNNGB", destination := "GBSOU", loadtype := "pallets",
    weight := 500, weightUnit := some "lb",
    width := some 120, length := some 100, height := some 180,
    dimensionUnit := some "cm", volume := some 2, volumeUnit := some "m3" }

/-- A persisted history with exactly 100 valid calls at time 50. -/
def fullHistory : List Int := List.replicate 100 50

/-- A concrete quote request with the default weight unit. -/
def kgOptions : QuoteOptions :=
  { origin := "CNSHA", destination := "LHR", loadtype := "boxes",
    weight := 150, weightUnit := some "kg" }

end Freightos

namespace Freightos

set_option maxRecDepth 8000

theorem status_callsInLastHour (calls : List Int) (now : Int) :
    (getRateLimitStatus calls now).callsInLastHour = (cleanOldCalls calls now).length := rfl

theorem status_remaining (calls : List Int) (now : Int) :
    (getRateLimitStatus calls now).remaining =
      max 0 ((RATE_LIMIT : Int) - (cleanOldCalls calls now).length) := rfl

theorem status_percentUsed (calls : List Int) (now : Int) :
    (getRateLimitStatus calls now).percentUsed =
      jsRound (((cleanOldCalls calls now).length : Int) * 100) (RATE_LIMIT : Int) := rfl

theorem status_resetsAt (calls : List Int) (now : Int) :
    (getRateLimitStatus calls now).resetsAt =
      if 0 < (cleanOldCalls calls now).length ∧
          max 0 ((RATE_LIMIT : Int) - (cleanOldCalls calls now).length) = 0 then
        some (mathMin (cleanOldCalls calls now) + RATE_LIMIT_WINDOW_MS)
      else none := rfl

theorem jsRound_of_hundred (c : Nat) : jsRound ((c : Int) * 100) (RATE_LIMIT : Int) = c := by
  unfold jsRound RATE_LIMIT
  rw [Int.fdiv_eq_ediv _ (by positivity)]
  omega

theorem count_filter_eq (a : Int) (p : Int → Bool) (l : List Int) :
    (l.filter p).count a = if p a then l.count a else 0 := by
  induction l with
  | nil => simp [List.count_nil]
  | cons x xs ih =>
    by_cases hx : p x <;> by_cases hax : x = a <;>
      simp [List.filter_cons, hx, hax, List.count_cons, ih] <;> simp_all

/-- C3: pruning keeps exactly the timestamps inside the trailing 1-hour
window (those strictly newer than `now` minus the window), removes all
others, and respects permutations of the input (same multiset retained). -/
theorem cleanOldCalls_window (now : Int) (calls calls' : List Int) (t : Int)
    (h : calls.Perm calls') :
    (cleanOldCalls calls now).Perm (cleanOldCalls calls' now) ∧
    (t ∈ cleanOldCalls calls now ↔ t ∈ calls ∧ now - RATE_LIMIT_WINDOW_MS < t) ∧
    ((cleanOldCalls calls now).count t =
      if now - RATE_LIMIT_WINDOW_MS < t then calls.count t else 0) := by
  refine ⟨h.filter _, ?_, ?_⟩
  · simp [cleanOldCalls, List.mem_filter]
  · rw [cleanOldCalls, count_filter_eq]
    by_cases ht : now - RATE_LIMIT_WINDOW_MS < t <;> simp [ht]

theorem cleanOldCalls_window_witness :
    (cleanOldCalls [1, 2, 3] (RATE_LIMIT_WINDOW_MS + 2)).Perm
      (cleanOldCalls [3, 2, 1] (RATE_LIMIT_WINDOW_MS + 2)) ∧
    (3 ∈ cleanOldCalls [1, 2, 3] (RATE_LIMIT_WINDOW_MS + 2) ↔
      3 ∈ ([1, 2, 3] : List Int) ∧ RATE_LIMIT_WINDOW_MS + 2 - RATE_LIMIT_WINDOW_MS < 3) ∧
    ((cleanOldCalls [1, 2, 3] (RATE_LIMIT_WINDOW_MS + 2)).count 3 =
      if RATE_LIMIT_WINDOW_MS + 2 - RATE_LIMIT_WINDOW_MS < 3 then
        ([1, 2, 3] : List Int).count 3 else 0) :=
  cleanOldCalls_window (RATE_LIMIT_WINDOW_MS + 2) [1, 2, 3] [3, 2, 1] 3 (by decide)

/-- C10: `percentUsed` is exactly the valid-call count (the rounding of
`count / limit * 100` with `limit = 100` is the identity) and is not capped
at 100, while `remaining` is clamped at 0 when the count overshoots. -/
theorem percentUsed_uncapped (calls : List Int) (now : Int) :
    (getRateLimitStatus calls now).percentUsed =
      ((getRateLimitStatus calls now).callsInLastHour : Int) ∧
    (getRateLimitStatus calls now).remaining =
      max 0 ((RATE_LIMIT : Int) - (getRateLimitStatus calls now).callsInLastHour) ∧
    (RATE_LIMIT < (getRateLimitStatus calls now).callsInLastHour →
      (RATE_LIMIT : Int) < (getRateLimitStatus calls now).percentUsed ∧
      (getRateLimitStatus calls now).remaining = 0) := by
  rw [status_percentUsed, status_remaining, status_callsInLastHour, jsRound_of_hundred]
  refine ⟨rfl, rfl, fun hlt => ⟨?_, ?_⟩⟩
  · exact_mod_cast hlt
  · have : (RATE_LIMIT : Int) < (cleanOldCalls calls now).length := by exact_mod_cast hlt
    omega

theorem reachedMsg_ne_approachingMsg (u l : Nat) (r : String) (u' l' : Nat) (p q : Int) :
    reachedMsg u l r ≠ approachingMsg u' l' p q := by
  intro h
  have h4 : (reachedMsg u l r).data.take 4 = (approachingMsg u' l' p q).data.take 4 := by
    rw [h]
  unfold reachedMsg approachingMsg at h4
  simp only [String.data_append] at h4
  rw [List.take_append_of_le_length (by decide),
      List.take_append_of_le_length (by decide)] at h4
  exact absurd h4 (by decide)

theorem status_warning (calls : List Int) (now : Int) :
    (getRateLimitStatus calls now).warning =
      (if RATE_LIMIT ≤ (cleanOldCalls calls now).length then
        some (reachedMsg (cleanOldCalls calls now).length RATE_LIMIT
          (timeText (getRateLimitStatus calls now).resetsAt "unknown"))
      else if RATE_LIMIT_WARNING_THRESHOLD ≤ (cleanOldCalls calls now).length then
        some (approachingMsg (cleanOldCalls calls now).length RATE_LIMIT
          (getRateLimitStatus calls now).percentUsed (getRateLimitStatus calls now).remaining)
      else none) := rfl

/-- C8: the warning is non-null exactly when the valid-call count has
reached the 80-call threshold; it is the `RATE LIMIT REACHED` variant
exactly when the count has reached the 100-call limit, and the
`Rate limit warning` (approaching) variant exactly on counts 80 to 99. -/
theorem warning_thresholds (calls : List Int) (now : Int) :
    ((getRateLimitStatus calls now).warning ≠ none ↔
      RATE_LIMIT_WARNING_THRESHOLD ≤ (getRateLimitStatus calls now).callsInLastHour) ∧
    ((getRateLimitStatus calls now).warning =
        some (reachedMsg (getRateLimitStatus calls now).callsInLastHour RATE_LIMIT
          (timeText (getRateLimitStatus calls now).resetsAt "unknown")) ↔
      RATE_LIMIT ≤ (getRateLimitStatus calls now).callsInLastHour) ∧
    ((getRateLimitStatus calls now).warning =
        some (approachingMsg (getRateLimitStatus calls now).callsInLastHour RATE_LIMIT
          (getRateLimitStatus calls now).percentUsed (getRateLimitStatus calls now).remaining) ↔
      (RATE_LIMIT_WARNING_THRESHOLD ≤ (getRateLimitStatus calls now).callsInLastHour ∧
        (getRateLimitStatus calls now).callsInLastHour < RATE_LIMIT)) := by
  rw [status_warning, status_callsInLastHour]
  have hwt : RATE_LIMIT_WARNING_THRESHOLD ≤ RATE_LIMIT := by decide
  by_cases h100 : RATE_LIMIT ≤ (cleanOldCalls calls now).length
  · have h80 : RATE_LIMIT_WARNING_THRESHOLD ≤ (cleanOldCalls calls now).length :=
      le_trans hwt h100
    simp only [if_pos h100]
    refine ⟨by simp [h80], by simp [h100], ?_⟩
    constructor
    · intro h
      exact absurd (Option.some.inj h) (reachedMsg_ne_approachingMsg _ _ _ _ _ _ _)
    · intro ⟨_, hlt⟩
      omega
  · simp only [if_neg h100]
    by_cases h80 : RATE_LIMIT_WARNING_THRESHOLD ≤ (cleanOldCalls calls now).length
    · simp only [if_pos h80]
      refine ⟨by simp [h80], ?_, by simp [h80]; omega⟩
      constructor
      · intro h
        exact absurd (Option.some.inj h).symm (reachedMsg_ne_approachingMsg _ _ _ _ _ _ _)
      · intro h
        exact absurd h h100
    · simp only [if_neg h80]
      refine ⟨by simp [h80], ?_, ?_⟩
      · simp
        omega
      · simp
        omega

theorem percentUsed_uncapped_witness :
    (getRateLimitStatus (List.replicate 101 50) 50).percentUsed =
      ((getRateLimitStatus (List.replicate 101 50) 50).callsInLastHour : Int) ∧
    (RATE_LIMIT : Int) < (getRateLimitStatus (List.replicate 101 50) 50).percentUsed ∧
    (getRateLimitStatus (List.replicate 101 50) 50).remaining = 0 := by
  have h := percentUsed_uncapped (List.replicate 101 50) 50
  exact ⟨h.1, (h.2.2 (by decide)).1, (h.2.2 (by decide)).2⟩

theorem request_shortCircuit (p : List (String × String)) (calls : List Int) (now : Int)
    (http : HttpOutcome) (h : (getRateLimitStatus calls now).remaining = 0) :
    request p calls now http =
      (.response { errors := some [rateLimitExceededMsg (getRateLimitStatus calls now)],
                   rateLimit := some (getRateLimitStatus calls now) }, calls) := by
  simp only [request]
  rw [h]
  simp

/-- C1: with zero remaining quota at the pre-flight check, every quote
entry point (`getQuote`, `getQuoteEstimate`, `compareRates`) is independent
of the HTTP oracle (no network call), leaves the stored call list unchanged,
and returns an error outcome carrying exactly one message (which embeds the
reset time, present because the quota is exhausted) together with the
rate-limit status. -/
theorem quota_exhausted_shortCircuit (options : QuoteOptions) (calls : List Int)
    (now : Int) (http http' : HttpOutcome)
    (h : (getRateLimitStatus calls now).remaining = 0) :
    getQuote options calls now http = getQuote options calls now http' ∧
    getQuoteEstimate options calls now http = getQuoteEstimate options calls now http' ∧
    compareRates options calls now http = compareRates options calls now http' ∧
    getQuote options calls now http =
      (.response { errors := some [rateLimitExceededMsg (getRateLimitStatus calls now)],
                   rateLimit := some (getRateLimitStatus calls now) }, calls) ∧
    getQuoteEstimate options calls now http =
      (.response { errors := some [rateLimitExceededMsg (getRateLimitStatus calls now)],
                   rateLimit := some (getRateLimitStatus calls now) }, calls) ∧
    compareRates options calls now http =
      (.response { errors := some [rateLimitExceededMsg (getRateLimitStatus calls now)],
                   rateLimit := some (getRateLimitStatus calls now) }, calls) ∧
    (getRateLimitStatus calls now).resetsAt.isSome = true := by
  have key := fun (p : List (String × String)) (o : HttpOutcome) =>
    request_shortCircuit p calls now o h
  refine ⟨?_, ?_, ?_, key _ _, key _ _, key _ _, ?_⟩
  · rw [getQuote, getQuote, key _ http, key _ http']
  · rw [getQuoteEstimate, getQuoteEstimate, key _ http, key _ http']
  · rw [compareRates, compareRates, key _ http, key _ http']
  · have hlen : 100 ≤ (cleanOldCalls calls now).length := by
      have hr := status_remaining calls now
      rw [h] at hr
      unfold RATE_LIMIT at hr
      omega
    rw [status_resetsAt,
        if_pos (⟨by omega, by unfold RATE_LIMIT; omega⟩ :
          0 < (cleanOldCalls calls now).length ∧
          max 0 ((RATE_LIMIT : Int) - ((cleanOldCalls calls now).length : Int)) = 0)]
    rfl

theorem quota_exhausted_shortCircuit_witness :
    getQuote sampleOptions fullHistory 50 (.ok noModeSevenQuotes) =
      getQuote sampleOptions fullHistory 50 (.httpError 500 "oops") ∧
    getQuoteEstimate sampleOptions fullHistory 50 (.ok noModeSevenQuotes) =
      getQuoteEstimate sampleOptions fullHistory 50 (.httpError 500 "oops") ∧
    compareRates sampleOptions fullHistory 50 (.ok noModeSevenQuotes) =
      compareRates sampleOptions fullHistory 50 (.httpError 500 "oops") ∧
    getQuote sampleOptions fullHistory 50 (.ok noModeSevenQuotes) =
      (.response { errors := some [rateLimitExceededMsg (getRateLimitStatus fullHistory 50)],
                   rateLimit := some (getRateLimitStatus fullHistory 50) }, fullHistory) ∧
    getQuoteEstimate sampleOptions fullHistory 50 (.ok noModeSevenQuotes) =
      (.response { errors := some [rateLimitExceededMsg (getRateLimitStatus fullHistory 50)],
                   rateLimit := some (getRateLimitStatus fullHistory 50) }, fullHistory) ∧
    compareRates sampleOptions fullHistory 50 (.ok noModeSevenQuotes) =
      (.response { errors := some [rateLimitExceededMsg (getRateLimitStatus fullHistory 50)],
                   rateLimit := some (getRateLimitStatus fullHistory 50) }, fullHistory) ∧
    (getRateLimitStatus fullHistory 50).resetsAt.isSome = true :=
  quota_exhausted_shortCircuit sampleOptions fullHistory 50
    (.ok noModeSevenQuotes) (.httpError 500 "oops") (by decide)

/-- C2: whenever the HTTP call completes (any status, success bodies with
business errors included), the stored list after the request is the pruned
previous list with the current timestamp appended — the call count grows by
exactly one. -/
theorem completed_call_recorded (p : List (String × String)) (calls : List Int)
    (now : Int) (http : HttpOutcome)
    (h : (getRateLimitStatus calls now).remaining ≠ 0) :
    (request p calls now http).2 = cleanOldCalls calls now ++ [now] ∧
    (request p calls now http).2.length = (cleanOldCalls calls now).length + 1 := by
  have hpos : 0 < (getRateLimitStatus calls now).remaining := by
    have hr := status_remaining calls now
    omega
  have h2 : (request p calls now http).2 = cleanOldCalls calls now ++ [now] := by
    unfold request
    rw [if_pos hpos]
    cases http with
    | httpError code text => rfl
    | ok rawData =>
      dsimp only
      rcases hE : (transformResponse rawData).errors with _ | es
      · rfl
      · dsimp only
        split <;> rfl
  refine ⟨h2, ?_⟩
  rw [h2]
  simp

theorem completed_call_recorded_witness :
    ((request [] [] 0 (.ok noModeSevenQuotes)).2 = cleanOldCalls [] 0 ++ [0] ∧
      (request [] [] 0 (.ok noModeSevenQuotes)).2.length =
        (cleanOldCalls [] 0).length + 1) ∧
    ((request [] [] 0 (.httpError 500 "oops")).2 = cleanOldCalls [] 0 ++ [0] ∧
      (request [] [] 0 (.httpError 500 "oops")).2.length =
        (cleanOldCalls [] 0).length + 1) ∧
    ((request [] [] 0 (.ok ⟨{ errors := some (.str "bad route") }⟩)).2 =
        cleanOldCalls [] 0 ++ [0] ∧
      (request [] [] 0 (.ok ⟨{ errors := some (.str "bad route") }⟩)).2.length =
        (cleanOldCalls [] 0).length + 1) :=
  ⟨completed_call_recorded [] [] 0 (.ok noModeSevenQuotes) (by decide),
   completed_call_recorded [] [] 0 (.httpError 500 "oops") (by decide),
   completed_call_recorded [] [] 0 (.ok ⟨{ errors := some (.str "bad route") }⟩) (by decide)⟩

/-- C4: a present error field — a nonempty single string, or a nonempty
array of `{error}` objects — normalizes to the corresponding list of plain
strings and returns immediately as an error outcome with no rate entries
(no rate list, no `numQuotes`); in particular the body
`{"response":{"errors":"bad route"}}` yields exactly `["bad route"]`. -/
theorem transformResponse_errorOutcome (s : String) (es : List RawErrorObj)
    (e : Option RawEstimatedFreightRates) (hs : s ≠ "") (hes : es ≠ []) :
    transformResponse ⟨{ errors := some (.str s), estimatedFreightRates := e }⟩ =
      { errors := some [s] } ∧
    transformResponse ⟨{ errors := some (.arr es), estimatedFreightRates := e }⟩ =
      { errors := some (es.map RawErrorObj.error) } ∧
    transformResponse ⟨{ errors := some (.str "bad route") }⟩ =
      { errors := some ["bad route"] } := by
  refine ⟨?_, ?_, by decide⟩
  · simp [transformResponse, errsTruthy, hs]
  · have hlen : 0 < es.length := List.length_pos.mpr hes
    simp [transformResponse, errsTruthy, hlen]

theorem transformResponse_errorOutcome_witness :
    transformResponse ⟨{ errors := some (.str "bad route"),
                         estimatedFreightRates := some ⟨none, 7⟩ }⟩ =
      { errors := some ["bad route"] } ∧
    transformResponse ⟨{ errors := some (.arr [⟨"no carrier"⟩]),
                         estimatedFreightRates := some ⟨none, 7⟩ }⟩ =
      { errors := some (([⟨"no carrier"⟩] : List RawErrorObj).map RawErrorObj.error) } ∧
    transformResponse ⟨{ errors := some (.str "bad route") }⟩ =
      { errors := some ["bad route"] } :=
  transformResponse_errorOutcome "bad route" [⟨"no carrier"⟩] (some ⟨none, 7⟩)
    (by decide) (by decide)

/-- C9: an errors field that normalizes to the empty list — the empty
string (falsy in JS) or an empty array — is treated as no error: the result
is identical to that of the same body with no errors field, its error list
stays unset, and the freight-rates path runs. -/
theorem transformResponse_emptyErrors (e : Option RawEstimatedFreightRates) :
    transformResponse ⟨{ errors := some (.str ""), estimatedFreightRates := e }⟩ =
      transformResponse ⟨{ errors := none, estimatedFreightRates := e }⟩ ∧
    transformResponse ⟨{ errors := some (.arr []), estimatedFreightRates := e }⟩ =
      transformResponse ⟨{ errors := none, estimatedFreightRates := e }⟩ ∧
    (transformResponse ⟨{ errors := some (.str ""), estimatedFreightRates := e }⟩).errors =
      none ∧
    (transformResponse ⟨{ errors := some (.arr []), estimatedFreightRates := e }⟩).errors =
      none := by
  have herr : ∀ raw : RawApiResponse, (transformRates raw ({} : QuoteResponse)).errors = none := by
    intro raw
    unfold transformRates
    rcases raw.response.estimatedFreightRates with _ | rates
    · rfl
    · dsimp only
      rcases rates.mode with _ | m
      · rfl
      · dsimp only
        split <;> rfl
  refine ⟨rfl, rfl, ?_, ?_⟩
  · exact herr ⟨{ errors := some (.str ""), estimatedFreightRates := e }⟩
  · exact herr ⟨{ errors := some (.arr []), estimatedFreightRates := e }⟩

/-- C5 counterexample: a body containing `estimatedFreightRates` with no
`mode` field but `numQuotes = 7` normalizes to an empty rate list with
`numQuotes = 7`, not `numQuotes = 0` as the claim states. -/
theorem transformResponse_numQuotes_counterexample :
    noModeSevenQuotes.response.estimatedFreightRates.isSome = true ∧
    (noModeSevenQuotes.response.estimatedFreightRates.map RawEstimatedFreightRates.mode) =
      some none ∧
    noModeSevenQuotes.response.errors = none ∧
    (transformResponse noModeSevenQuotes).errors = none ∧
    (transformResponse noModeSevenQuotes).estimatedFreightRates = some [] ∧
    (transformResponse noModeSevenQuotes).numQuotes = some 7 ∧
    (transformResponse noModeSevenQuotes).numQuotes ≠ some 0 := by
  decide

/-- C5 (amended): when `numQuotes` is 0 or the mode field is absent or an
empty array, normalization yields a success outcome (no errors) with an
empty rate list and `numQuotes` passed through unchanged from the raw body
(hence 0 exactly when the raw `numQuotes` is 0); in particular
`{"response":{"estimatedFreightRates":{"numQuotes":0}}}` yields a success
outcome with an empty rate list and `numQuotes = 0`. -/
theorem transformResponse_noRates (rates : RawEstimatedFreightRates)
    (h : rates.mode = none ∨ rates.numQuotes = 0 ∨ rates.mode = some (.many [])) :
    transformResponse ⟨{ estimatedFreightRates := some rates }⟩ =
      { numQuotes := some rates.numQuotes, estimatedFreightRates := some [] } ∧
    transformResponse ⟨{ estimatedFreightRates := some ⟨none, 0⟩ }⟩ =
      { numQuotes := some 0, estimatedFreightRates := some [] } := by
  refine ⟨?_, by decide⟩
  show transformRates ⟨{ estimatedFreightRates := some rates }⟩ {} =
    { numQuotes := some rates.numQuotes, estimatedFreightRates := some [] }
  unfold transformRates
  dsimp only
  rcases hm : rates.mode with _ | m
  · rfl
  · dsimp only
    rcases h with h | h | h
    · exact absurd (hm ▸ h) (by simp)
    · rw [if_pos h]
    · rw [hm] at h
      rw [Option.some.inj h]
      rcases hq : rates.numQuotes with _ | n
      · rfl
      · rw [if_neg (by omega)]
        rfl

theorem transformResponse_noRates_witness :
    (transformResponse ⟨{ estimatedFreightRates := some ⟨none, 0⟩ }⟩ =
      { numQuotes := some (⟨none, 0⟩ : RawEstimatedFreightRates).numQuotes,
        estimatedFreightRates := some [] } ∧
    transformResponse ⟨{ estimatedFreightRates := some ⟨none, 0⟩ }⟩ =
      { numQuotes := some 0, estimatedFreightRates := some [] }) ∧
    (transformResponse ⟨{ estimatedFreightRates := some ⟨some (.many []), 5⟩ }⟩ =
      { numQuotes := some (⟨some (.many []), 5⟩ : RawEstimatedFreightRates).numQuotes,
        estimatedFreightRates := some [] } ∧
    transformResponse ⟨{ estimatedFreightRates := some ⟨none, 0⟩ }⟩ =
      { numQuotes := some 0, estimatedFreightRates := some [] }) :=
  ⟨transformResponse_noRates ⟨none, 0⟩ (Or.inl rfl),
   transformResponse_noRates ⟨some (.many []), 5⟩ (Or.inr (Or.inr rfl))⟩

/-- C6: a single-object `mode` field yields a one-entry rate list and an
array of N objects yields an N-entry list, each entry flattened by the same
mapping — `price.min.moneyAmount.{amount,currency}` and
`price.max.moneyAmount.{amount,currency}` into flat min/max prices, and
transit `min`/`max`/`unit` into the flat transit-times record. -/
theorem transformResponse_modeShapes (d : RawModeData) (ds : List RawModeData)
    (n : Nat) (m : RawModeData) (hn : n ≠ 0) :
    (transformResponse
      ⟨{ estimatedFreightRates := some ⟨some (.one d), n⟩ }⟩).estimatedFreightRates =
        some [flattenMode d] ∧
    (transformResponse
      ⟨{ estimatedFreightRates := some ⟨some (.many ds), n⟩ }⟩).estimatedFreightRates =
        some (ds.map flattenMode) ∧
    (((transformResponse
      ⟨{ estimatedFreightRates := some ⟨some (.many ds), n⟩ }⟩).estimatedFreightRates).getD
        []).length = ds.length ∧
    flattenMode m =
      { mode := m.mode
        minPrice := { amount := m.price.min.moneyAmount.amount
                      currency := m.price.min.moneyAmount.currency }
        maxPrice := { amount := m.price.max.moneyAmount.amount
                      currency := m.price.max.moneyAmount.currency }
        transitTimes := { min := m.transitTimes.min
                          max := m.transitTimes.max
                          unit := some m.transitTimes.unit } } := by
  have key : ∀ md : RawMode,
      (transformResponse
        ⟨{ estimatedFreightRates := some ⟨some md, n⟩ }⟩).estimatedFreightRates =
        some ((toModesArray md).map flattenMode) := by
    intro md
    show (transformRates ⟨{ estimatedFreightRates := some ⟨some md, n⟩ }⟩
      ({} : QuoteResponse)).estimatedFreightRates = _
    unfold transformRates
    dsimp only
    rw [if_neg hn]
  refine ⟨key (.one d), key (.many ds), ?_, rfl⟩
  rw [key (.many ds)]
  simp [toModesArray]

theorem transformResponse_modeShapes_witness :
    (transformResponse
      ⟨{ estimatedFreightRates := some ⟨some (.one seaMode), 1⟩ }⟩).estimatedFreightRates =
        some [flattenMode seaMode] ∧
    (transformResponse
      ⟨{ estimatedFreightRates :=
           some ⟨some (.many [seaMode, seaMode]), 1⟩ }⟩).estimatedFreightRates =
        some (([seaMode, seaMode] : List RawModeData).map flattenMode) ∧
    (((transformResponse
      ⟨{ estimatedFreightRates :=
           some ⟨some (.many [seaMode, seaMode]), 1⟩ }⟩).estimatedFreightRates).getD
        []).length = ([seaMode, seaMode] : List RawModeData).length ∧
    flattenMode seaMode =
      { mode := seaMode.mode
        minPrice := { amount := seaMode.price.min.moneyAmount.amount
                      currency := seaMode.price.min.moneyAmount.currency }
        maxPrice := { amount := seaMode.price.max.moneyAmount.amount
                      currency := seaMode.price.max.moneyAmount.currency }
        transitTimes := { min := seaMode.transitTimes.min
                          max := seaMode.transitTimes.max
                          unit := some seaMode.transitTimes.unit } } :=
  transformResponse_modeShapes seaMode [seaMode, seaMode] 1 seaMode (by decide)

/-- C7: the weight parameter is the bare number when the weight unit is
absent, empty, or the default `"kg"`, and otherwise the number immediately
followed by the unit with no separator; the same no-separator suffix
convention applies to width, length, height (with the shared dimension
unit) and volume (with the volume unit); in particular width 120 with
dimension unit `"cm"` serializes as `width=120cm`. -/
theorem buildParams_unitSuffix (options : QuoteOptions) (w x y v : Nat) (u : String) :
    ((options.weightUnit = none ∨ options.weightUnit = some "" ∨
        options.weightUnit = some "kg") →
      (buildParams options).lookup "weight" = some (toString options.weight)) ∧
    ((options.weightUnit = some u ∧ u ≠ "" ∧ u ≠ "kg") →
      (buildParams options).lookup "weight" = some (toString options.weight ++ u)) ∧
    (options.width = some w →
      (buildParams options).lookup "width" =
        some (toString w ++ options.dimensionUnit.getD "")) ∧
    (options.length = some x →
      (buildParams options).lookup "length" =
        some (toString x ++ options.dimensionUnit.getD "")) ∧
    (options.height = some y →
      (buildParams options).lookup "height" =
        some (toString y ++ options.dimensionUnit.getD "")) ∧
    (options.volume = some v →
      (buildParams options).lookup "volume" =
        some (toString v ++ options.volumeUnit.getD "")) ∧
    (buildParams { origin := "CNNGB", destination := "GBSOU", loadtype := "pallets",
                   weight := 500, width := some 120,
                   dimensionUnit := some "cm" }).lookup "width" = some "120cm" := by
  refine ⟨?_, ?_, ?_, ?_, ?_, ?_, by decide⟩
  · intro h
    rcases h with h | h | h <;> (simp only [buildParams, weightParam, h]; rfl)
  · intro ⟨hu, h1, h2⟩
    simp only [buildParams, weightParam, hu]
    rw [if_pos (show (u != "" && u != "kg") = true by simp [h1, h2])]
    rfl
  · intro h
    simp only [buildParams, h]
    rfl
  · intro h
    rcases hW : options.width with _ | w' <;>
      (simp only [buildParams, hW, h]; rfl)
  · intro h
    rcases hW : options.width with _ | w' <;>
      rcases hL : options.length with _ | l' <;>
        (simp only [buildParams, hW, hL, h]; rfl)
  · intro h
    rcases hW : options.width with _ | w' <;>
      rcases hL : options.length with _ | l' <;>
        rcases hH : options.height with _ | h' <;>
          (simp only [buildParams, hW, hL, hH, h]; rfl)

theorem buildParams_unitSuffix_witness :
    (buildParams kgOptions).lookup "weight" = some (toString kgOptions.weight) ∧
    (buildParams sampleOptions).lookup "weight" =
      some (toString sampleOptions.weight ++ "lb") ∧
    (buildParams sampleOptions).lookup "width" =
      some (toString 120 ++ sampleOptions.dimensionUnit.getD "") ∧
    (buildParams sampleOptions).lookup "length" =
      some (toString 100 ++ sampleOptions.dimensionUnit.getD "") ∧
    (buildParams sampleOptions).lookup "height" =
      some (toString 180 ++ sampleOptions.dimensionUnit.getD "") ∧
    (buildParams sampleOptions).lookup "volume" =
      some (toString 2 ++ sampleOptions.volumeUnit.getD "") ∧
    (buildParams { origin := "CNNGB", destination := "GBSOU", loadtype := "pallets",
                   weight := 500, width := some 120,
                   dimensionUnit := some "cm" }).lookup "width" = some "120cm" := by
  have h1 := buildParams_unitSuffix kgOptions 0 0 0 0 ""
  have h2 := buildParams_unitSuffix sampleOptions 120 100 180 2 "lb"
  exact ⟨h1.1 (Or.inr (Or.inr rfl)), h2.2.1 ⟨rfl, by decide, by decide⟩,
         h2.2.2.1 rfl, h2.2.2.2.1 rfl, h2.2.2.2.2.1 rfl,
         h2.2.2.2.2.2.1 rfl, h2.2.2.2.2.2.2⟩

end Freightos
